import Mathlib

/-!
Verification of the declaration-classification engine of the `ids` tools.

This file gives a shallow embedding of the classification logic of the
interface-definition tools in this repository and proves properties of it.

The repository contains several variants of the same visitor:

* `idt.cc`, first revision ("variant A"): `VisitFunctionDecl`,
  `VisitClassTemplateSpecializationDecl`, `VisitVarDecl`, `VisitCXXRecordDecl`,
  with an `annotate-classes` option and a fixed built-in ignore set
  `kIgnoredFunctions`.
* `idt.cc`, second revision ("variant B"): only `VisitFunctionDecl`, with the
  ignore set built from the `-ignore` command-line list
  (`get_ignored_functions`).
* `libtool.cc`: a report-only variant with `VisitFunctionDecl` and
  `VisitCXXMethodDecl` that prints declarations instead of emitting fix-its.
* the fix-it libtool variant (unnamed part_000): `VisitFunctionDecl` and
  `VisitCXXMethodDecl` emitting fix-its.

Each visitor is embedded as a pure function from a `DeclarationFact` record —
the clang queries its guards perform, snapshotted per declaration — to a
`Verdict`.  Source locations are byte offsets (`Nat`); `getLocWithOffset` is
addition.
-/

namespace Ids

/-- Declaration kinds distinguished by the visitors: the dynamic type of the
clang declaration node (`FunctionDecl` vs `CXXMethodDecl` vs `VarDecl` vs
`CXXRecordDecl` vs `ClassTemplateSpecializationDecl`). -/
inductive DeclKind where
  | function
  | method
  | record
  | var
  | ctsd
deriving DecidableEq, Repr

/-- Clang `AccessSpecifier` (`MD->getAccess()`). -/
inductive AccessSpecifier where
  | asPublic
  | asProtected
  | asPrivate
  | asNone
deriving DecidableEq, Repr

/-- Clang `FunctionDecl::TemplatedKind` (`FD->getTemplatedKind()`); the code
only compares against `TK_NonTemplate`. -/
inductive TemplatedKind where
  | tkNonTemplate
  | tkFunctionTemplate
  | tkMemberSpecialization
  | tkFunctionTemplateSpecialization
  | tkDependentFunctionTemplateSpecialization
deriving DecidableEq, Repr

/-- Clang `TemplateSpecializationKind`
(`CD->getTemplateSpecializationKind()`). -/
inductive TemplateSpecializationKind where
  | tskUndeclared
  | tskImplicitInstantiation
  | tskExplicitSpecialization
  | tskExplicitInstantiationDeclaration
  | tskExplicitInstantiationDefinition
deriving DecidableEq, Repr

/-- Tag kind of a record: the code queries `CD->isStruct()` and
`CD->isUnion()`. -/
inductive TagKind where
  | classTag
  | structTag
  | unionTag
deriving DecidableEq, Repr

/-- Snapshot of one declaration at classification time: the results of every
clang query the visitors perform on the declaration node and the source
manager.  Kind-specific fields are meaningful only for the matching `kind`. -/
structure DeclarationFact where
  kind : DeclKind
  /-- Qualified name as a non-empty component list: enclosing namespaces and
  records followed by the bare identifier; `getNameAsString` is the last
  component. -/
  qualified_name : List String
  /-- `source_manager_.getFilename(location)` at the expansion location. -/
  filename : String
  /-- `source_manager_.isInSystemHeader(location)`. -/
  in_system_header : Bool
  /-- `FD->isDependentContext()`. -/
  is_dependent_context : Bool
  /-- This declaration has a body (`doesThisDeclarationHaveABody` /
  `hasBody`). -/
  has_body : Bool
  /-- `llvm::isa<clang::FriendDecl>(FD)` or
  `FD->getFriendObjectKind() != FOK_None`. -/
  is_friend : Bool
  /-- `FD->isDeleted()`. -/
  is_deleted : Bool
  /-- `FD->isDefaulted()`. -/
  is_defaulted : Bool
  /-- `MD->getAccess()` (methods). -/
  access : AccessSpecifier
  /-- `MD->isPure()` (methods). -/
  is_pure : Bool
  /-- `hasAttr<clang::DLLExportAttr>()`. -/
  has_dllexport_attr : Bool
  /-- `hasAttr<clang::DLLImportAttr>()`. -/
  has_dllimport_attr : Bool
  /-- `hasAttr<clang::VisibilityAttr>()`. -/
  has_visibility_attr : Bool
  /-- `FD->getTemplatedKind()` (functions and methods). -/
  templated_kind : TemplatedKind
  /-- `CD->getTemplateSpecializationKind()` (records). -/
  tsk : TemplateSpecializationKind
  /-- `CD->isCompleteDefinition()` (records). -/
  is_complete_definition : Bool
  /-- `llvm::isa<clang::RecordDecl>(CD->getParent())` (records). -/
  parent_is_record : Bool
  /-- Tag kind (records); `isStruct`/`isUnion` test it. -/
  tag : TagKind
  /-- `getIncludeLoc(getFileID(CD->getBeginLoc()))` is a valid location, i.e.
  the file was reached via an include (records). -/
  include_loc_valid : Bool
  /-- `VD->hasExternalStorage()` (variables). -/
  has_external_storage : Bool
  /-- `CTSD->getSpecializedTemplate()->getTemplatedDecl()->isStruct()`
  (class-template specializations). -/
  specialized_template_is_struct : Bool
  /-- `getBeginLoc()` as a byte offset. -/
  begin_loc : Nat
  /-- `getInnerLocStart()` — the start past the template header — as a byte
  offset. -/
  inner_loc_start : Nat
  /-- `CTSD->getExternLoc()` as a byte offset. -/
  extern_loc : Nat
deriving DecidableEq, Repr

/-- `FD->getNameAsString()`: the bare identifier, without namespace
qualification. -/
def getNameAsString (f : DeclarationFact) : String :=
  f.qualified_name.getLastD ""

/-- Run-wide configuration read by variant A inside the visitor. -/
structure Config where
  /-- `-export-macro` (required). -/
  export_macro_name : String
  /-- `-annotate-classes` (default true). -/
  annotate_classes : Bool
deriving DecidableEq, Repr

/-- Result of classifying one declaration.  `skip` is `return true` with no
diagnostic; `flagUnexported` is the `unexported public interface` remark with
its fix-it insertion (byte offset and inserted text); `flagOverExportedPrivate`
is the `exported private interface` remark (no fix-it). -/
inductive Verdict where
  | skip
  | flagUnexported (insertion_point : Nat) (text : String)
  | flagOverExportedPrivate
deriving DecidableEq, Repr

/-- `haystack.find(needle) != llvm::StringRef::npos`: `needle` occurs as a
contiguous substring of `haystack`. -/
def strContainsSub (haystack needle : String) : Bool :=
  (List.range (haystack.toList.length + 1)).any fun i =>
    needle.toList.isPrefixOf (haystack.toList.drop i)

/-- The path heuristic shared by variant A's visitors: skip files whose name
contains `/lib/`, `/tools/`, or `.def`. -/
def pathHeuristicSkip (filename : String) : Bool :=
  strContainsSub filename "/lib/" || strContainsSub filename "/tools/" ||
    strContainsSub filename ".def"

/-- The fixed built-in ignore set `kIgnoredFunctions` of variant A (also
repeated locally in `libtool.cc` and the fix-it libtool variant). -/
def kIgnoredFunctions : List String :=
  ["_BitScanForward", "_BitScanForward64", "_BitScanReverse",
   "_BitScanReverse64", "__builtin_strlen"]

/-- The shared tail of variant A's `VisitFunctionDecl`, after the
`dyn_cast<CXXMethodDecl>` block: the dll-interface guard
(export/import/visibility), the ignore-list guard, and the flagging of the
declaration with its template-aware insertion point. -/
def functionDeclTail (cfg : Config) (ignore : List String)
    (f : DeclarationFact) : Verdict :=
  if f.has_dllexport_attr || f.has_dllimport_attr ||
      f.has_visibility_attr then .skip
  else if ignore.contains (getNameAsString f) then .skip
  else
    .flagUnexported
      (if f.templated_kind = .tkNonTemplate then f.begin_loc
       else f.inner_loc_start)
      (cfg.export_macro_name ++ " ")

/-- Variant A `idt::visitor::VisitFunctionDecl`, guard for guard.  Handles
both free functions and methods; the `dyn_cast<CXXMethodDecl>` block becomes
a match on the kind, and both paths fall through to `functionDeclTail`. -/
def visitFunctionDecl (cfg : Config) (ignore : List String)
    (f : DeclarationFact) : Verdict :=
  if pathHeuristicSkip f.filename then .skip
  else if f.in_system_header then .skip
  else if f.is_dependent_context then .skip
  else if f.has_body then .skip
  else if f.is_friend then .skip
  else if f.is_deleted || f.is_defaulted then .skip
  else
    match f.kind with
    | .method =>
      if cfg.annotate_classes then .skip
      else if f.access = .asPrivate then
        (if f.has_dllexport_attr then .flagOverExportedPrivate else .skip)
      else if f.is_pure then .skip
      else functionDeclTail cfg ignore f
    | _ => functionDeclTail cfg ignore f

/-- Variant A `idt::visitor::VisitCXXRecordDecl`, guard for guard. -/
def visitCXXRecordDecl (cfg : Config) (f : DeclarationFact) : Verdict :=
  if ¬cfg.annotate_classes then .skip
  else if getNameAsString f = "LLVM_ABI" then .skip
  else if pathHeuristicSkip f.filename then .skip
  else if f.in_system_header then .skip
  else if ¬f.is_complete_definition then .skip
  else if f.parent_is_record then .skip
  else if f.has_dllexport_attr || f.has_dllimport_attr ||
      f.has_visibility_attr then .skip
  else if f.tag = .unionTag then .skip
  else if ¬f.include_loc_valid then .skip
  else if f.tsk = .tskExplicitInstantiationDeclaration ∨
      f.tsk = .tskExplicitInstantiationDefinition then .skip
  else
    .flagUnexported (f.begin_loc + (if f.tag = .structTag then 7 else 6))
      (cfg.export_macro_name ++ " ")

/-- Variant A `idt::visitor::VisitVarDecl`, guard for guard.  Note: no
system-header guard is present in the source. -/
def visitVarDecl (cfg : Config) (f : DeclarationFact) : Verdict :=
  if pathHeuristicSkip f.filename then .skip
  else if f.has_dllexport_attr || f.has_dllimport_attr ||
      f.has_visibility_attr then .skip
  else if ¬f.has_external_storage then .skip
  else .flagUnexported f.begin_loc (cfg.export_macro_name ++ " ")

/-- Variant A `idt::visitor::VisitClassTemplateSpecializationDecl`, guard for
guard.  Note: no system-header guard and no definition guard are present in
the source (the `isThisDeclarationADefinition` check is commented out), and
the `offset` computed from `isStruct` is dead — the insertion point is
`getExternLoc()`. -/
def visitClassTemplateSpecializationDecl (cfg : Config)
    (f : DeclarationFact) : Verdict :=
  if pathHeuristicSkip f.filename then .skip
  else if f.has_dllexport_attr || f.has_dllimport_attr ||
      f.has_visibility_attr then .skip
  else .flagUnexported f.extern_loc (cfg.export_macro_name ++ " ")

/-- The variant A classification engine: dispatch on the declaration kind to
the matching visitor. -/
def classify (cfg : Config) (ignore : List String)
    (f : DeclarationFact) : Verdict :=
  match f.kind with
  | .function => visitFunctionDecl cfg ignore f
  | .method => visitFunctionDecl cfg ignore f
  | .record => visitCXXRecordDecl cfg f
  | .var => visitVarDecl cfg f
  | .ctsd => visitClassTemplateSpecializationDecl cfg f

/-- Split a character list at commas into its comma-free segments. -/
def splitCommaChars : List Char → List (List Char)
  | [] => [[]]
  | c :: rest =>
    match splitCommaChars rest with
    | [] => [[]]
    | cur :: done =>
      if c = ',' then [] :: cur :: done else (c :: cur) :: done

/-- Split one flag value at commas. -/
def splitCommas (s : String) : List String :=
  (splitCommaChars s.toList).map fun cs => String.mk cs

/-- `llvm::cl::list` with `llvm::cl::CommaSeparated`: each occurrence of the
`-ignore` flag is split at commas, and occurrences are concatenated in
order. -/
def parseIgnoreOccurrences (occurrences : List String) : List String :=
  occurrences.flatMap splitCommas

/-- Variant B `get_ignored_functions`: a `std::set<std::string>` constructed
once from the `ignored_functions` command-line list — the defaults of
`kIgnoredFunctions` are not merged in.  The set collapses duplicates; we keep
the deduplicated element list. -/
def get_ignored_functions (occurrences : List String) : List String :=
  (parseIgnoreOccurrences occurrences).dedup

/-- The shared tail of variant B's `VisitFunctionDecl`: the dll-interface
guard (export/import only — no `VisibilityAttr`, per the code's TODO), the
ignore-list guard, and the flagging of the declaration. -/
def functionDeclTailV2 (export_macro_name : String) (ignore : List String)
    (f : DeclarationFact) : Verdict :=
  if f.has_dllexport_attr || f.has_dllimport_attr then .skip
  else if ignore.contains (getNameAsString f) then .skip
  else
    .flagUnexported
      (if f.templated_kind = .tkNonTemplate then f.begin_loc
       else f.inner_loc_start)
      (export_macro_name ++ " ")

/-- Variant B `idt::visitor::VisitFunctionDecl`, guard for guard.  Differences
from variant A: no path heuristic, no `annotate-classes` guard, the annotation
guard tests only `DLLExportAttr`/`DLLImportAttr`, and the ignore set is
`get_ignored_functions()`. -/
def visitFunctionDeclV2 (export_macro_name : String) (ignore : List String)
    (f : DeclarationFact) : Verdict :=
  if f.in_system_header then .skip
  else if f.is_dependent_context then .skip
  else if f.has_body then .skip
  else if f.is_friend then .skip
  else if f.is_deleted || f.is_defaulted then .skip
  else
    match f.kind with
    | .method =>
      if f.access = .asPrivate then
        (if f.has_dllexport_attr then .flagOverExportedPrivate else .skip)
      else if f.is_pure then .skip
      else functionDeclTailV2 export_macro_name ignore f
    | _ => functionDeclTailV2 export_macro_name ignore f

/-- Outcome of the report-only `libtool.cc` visitors: either no output, or the
declaration is printed by `diagnose`, possibly preceded by the
`WARNING: over-exporting` line. -/
inductive ReportOutcome where
  | silent
  | reported
  | overExportWarningThenReported
deriving DecidableEq, Repr

/-- `libtool::visitor::VisitCXXMethodDecl` from `libtool.cc` (report-only
variant), guard for guard.  The export/import guard precedes the
private-member check, and the warning branch falls through to `diagnose`. -/
def libtoolVisitCXXMethodDecl (f : DeclarationFact) : ReportOutcome :=
  if f.in_system_header then .silent
  else if f.is_dependent_context then .silent
  else if f.has_body then .silent
  else if f.is_deleted || f.is_defaulted then .silent
  else if f.has_dllexport_attr || f.has_dllimport_attr then .silent
  else if f.access = .asPrivate ∧ f.has_dllexport_attr then
    .overExportWarningThenReported
  else .reported

/-! Concrete facts and configurations used in witnesses and
counterexamples -/

/-- A plain free-function declaration `void f() noexcept;` at the top of a
header, with no attribute, body, or special property. -/
def baseFact : DeclarationFact where
  kind := .function
  qualified_name := ["f"]
  filename := "include/interface.h"
  in_system_header := false
  is_dependent_context := false
  has_body := false
  is_friend := false
  is_deleted := false
  is_defaulted := false
  access := .asNone
  is_pure := false
  has_dllexport_attr := false
  has_dllimport_attr := false
  has_visibility_attr := false
  templated_kind := .tkNonTemplate
  tsk := .tskUndeclared
  is_complete_definition := false
  parent_is_record := false
  tag := .classTag
  include_loc_valid := false
  has_external_storage := false
  specialized_template_is_struct := false
  begin_loc := 0
  inner_loc_start := 0
  extern_loc := 0

/-- Default configuration: `-export-macro EXPORT`, `-annotate-classes`
defaulted to true. -/
def cfgDefault : Config := ⟨"EXPORT", true⟩

/-- Configuration with `-annotate-classes=false`. -/
def cfgNoClasses : Config := ⟨"EXPORT", false⟩

/-- A private method carrying only a dll-import attribute. -/
def fPrivImport : DeclarationFact :=
  { baseFact with kind := .method, access := .asPrivate,
                  has_dllimport_attr := true }

/-- A private method carrying a dll-export attribute. -/
def fPrivExport : DeclarationFact :=
  { baseFact with kind := .method, access := .asPrivate,
                  has_dllexport_attr := true }

/-- An `extern` variable declared in a system header, unannotated. -/
def fSysVar : DeclarationFact :=
  { baseFact with kind := .var, in_system_header := true,
                  has_external_storage := true }

/-- A class-template specialization that is a definition (has a body). -/
def fBodyCtsd : DeclarationFact :=
  { baseFact with kind := .ctsd, has_body := true }

/-- An explicit function-template specialization declaration,
`template <> void tpl<char>(char &);`: the begin location is the `template`
keyword and the inner location starts after the template header. -/
def fTplSpec : DeclarationFact :=
  { baseFact with qualified_name := ["tpl<char>"],
                  templated_kind := .tkFunctionTemplateSpecialization,
                  inner_loc_start := 12 }

/-- A complete top-level `struct` definition in an included header. -/
def fStructRec : DeclarationFact :=
  { baseFact with kind := .record, qualified_name := ["record"],
                  is_complete_definition := true, include_loc_valid := true,
                  tag := .structTag, begin_loc := 100 }

/-- A free function already annotated with a visibility attribute. -/
def fAnnotated : DeclarationFact :=
  { baseFact with has_visibility_attr := true }

/-- The declaration `unsigned char _BitScanForward(unsigned long *, unsigned
long);` from `Tests/KnownBuiltins.hh`. -/
def fBitScan : DeclarationFact :=
  { baseFact with qualified_name := ["_BitScanForward"] }

/-! Claim theorems, witnesses, and counterexamples. -/

/-- Claim C10: In the report-only variant (`libtool.cc`), the over-exporting
warning for private methods is never emitted for any method fact: every
outcome of `VisitCXXMethodDecl` is either silent or a plain report.  The
guard skipping methods with an export or import attribute precedes the
private-member check, so the branch requiring both `access = private` and the
dll-export attribute is unreachable. -/
theorem c10_over_export_warning_unreachable (f : DeclarationFact) :
    libtoolVisitCXXMethodDecl f = .silent ∨
      libtoolVisitCXXMethodDecl f = .reported := by
  simp only [libtoolVisitCXXMethodDecl]
  repeat' split
  all_goals simp_all

/-- Claim C9: The ignore list actually consulted by the variant that accepts
user `-ignore` entries (`get_ignored_functions`) contains only the user
entries: with no `-ignore` occurrences it is empty, the known-builtin
defaults of `kIgnoredFunctions` are not merged in, and consequently the
builtin `_BitScanForward` — which `Tests/KnownBuiltins.hh` expects to be
skipped — is flagged unexported by that variant's classifier.  Comma-separated
and repeated occurrences of the flag are accepted and deduplicated, but the
default set is absent. -/
theorem c9_builtins_not_merged :
    get_ignored_functions [] = [] ∧
    "_BitScanForward" ∈ kIgnoredFunctions ∧
    visitFunctionDeclV2 "IDT_TEST_ABI" (get_ignored_functions []) fBitScan =
      .flagUnexported fBitScan.begin_loc "IDT_TEST_ABI " ∧
    (get_ignored_functions ["f,g"]).toFinset =
      (get_ignored_functions ["f", "g", "f"]).toFinset ∧
    "_BitScanForward" ∉ get_ignored_functions ["f,g"] := by
  decide

/-- Claim C1, counterexample: The claim that every private method fact with a
non-none export attribute yields `FlagOverExportedPrivate` fails on the code:
a private method carrying only a dll-import attribute is skipped (with
`annotate_classes = false`, the private branch tests only the dll-export
attribute), and a private method carrying the dll-export attribute is also
skipped when `annotate_classes = true` (the annotate-classes guard precedes
the private check). -/
theorem c1_counterexample :
    (fPrivImport.kind = .method ∧ fPrivImport.access = .asPrivate ∧
      (fPrivImport.has_dllexport_attr || fPrivImport.has_dllimport_attr ||
        fPrivImport.has_visibility_attr) = true ∧
      classify cfgNoClasses [] fPrivImport = .skip) ∧
    (fPrivExport.kind = .method ∧ fPrivExport.access = .asPrivate ∧
      fPrivExport.has_dllexport_attr = true ∧
      classify cfgDefault [] fPrivExport = .skip) := by
  decide

/-- Claim C1, amended: For every method fact with `access = private` that
reaches the private-member guard — `annotate_classes = false` and none of the
earlier structural guards fires (internal path, system header, dependent
context, body, friend, deleted, defaulted) — `classify` returns
`FlagOverExportedPrivate` exactly when the dll-export attribute is present and
`Skip` otherwise; import or visibility attributes do not trigger the flag.
No later guard (already-annotated, ignore list) suppresses this verdict. -/
theorem c1_private_method_verdict (cfg : Config) (ig : List String)
    (f : DeclarationFact) (hk : f.kind = .method)
    (hac : cfg.annotate_classes = false) (hpriv : f.access = .asPrivate)
    (hpath : pathHeuristicSkip f.filename = false)
    (hsys : f.in_system_header = false)
    (hdep : f.is_dependent_context = false) (hbody : f.has_body = false)
    (hfr : f.is_friend = false) (hdel : f.is_deleted = false)
    (hdf : f.is_defaulted = false) :
    classify cfg ig f =
      (if f.has_dllexport_attr then .flagOverExportedPrivate else .skip) := by
  simp [classify, hk, visitFunctionDecl, hpath, hsys, hdep, hbody, hfr, hdel,
    hdf, hac, hpriv]

/-- Claim C1, witness: The amended theorem applied to a concrete private
dll-exported method with `annotate_classes = false`. -/
theorem c1_witness :
    classify cfgNoClasses [] fPrivExport = .flagOverExportedPrivate := by
  have h := c1_private_method_verdict cfgNoClasses [] fPrivExport
    (by decide) (by decide) (by decide) (by decide) (by decide) (by decide)
    (by decide) (by decide) (by decide) (by decide)
  simpa using h

/-- A plain free-function declaration located in a system header. -/
def fSysFun : DeclarationFact := { baseFact with in_system_header := true }

/-- A method declaration that has a body. -/
def fBodyMethod : DeclarationFact :=
  { baseFact with kind := .method, access := .asPublic, has_body := true }

/-- Claim C2, counterexample: The claim that every fact in a system header is
skipped fails on the code: the variable classifier has no system-header
guard, so an unannotated `extern` variable in a system header is flagged
unexported. -/
theorem c2_counterexample :
    fSysVar.in_system_header = true ∧
    classify cfgDefault [] fSysVar =
      .flagUnexported fSysVar.begin_loc "EXPORT " := by
  decide

/-- Claim C2, amended: For every fact in a system header whose kind is
function, method, or record, `classify` returns `Skip`; the variable and
class-template-specialization classifiers contain no system-header guard and
can flag such facts. -/
theorem c2_system_header_skip (cfg : Config) (ig : List String)
    (f : DeclarationFact) (hsys : f.in_system_header = true)
    (hk : f.kind = .function ∨ f.kind = .method ∨ f.kind = .record) :
    classify cfg ig f = .skip := by
  rcases hk with h | h | h <;>
    simp [classify, h, visitFunctionDecl, visitCXXRecordDecl, hsys]

/-- Claim C2, witness: The amended theorem applied to a concrete free function
in a system header. -/
theorem c2_witness : classify cfgDefault [] fSysFun = .skip :=
  c2_system_header_skip cfgDefault [] fSysFun (by decide)
    (Or.inl (by decide))

/-- Claim C3, counterexample: The claim that every fact with `has_body = true`
is skipped regardless of its kind fails on the code: the
class-template-specialization classifier never consults the body (the
`isThisDeclarationADefinition` check is commented out), so a specialization
that is a definition is still flagged unexported. -/
theorem c3_counterexample :
    fBodyCtsd.has_body = true ∧
    classify cfgDefault [] fBodyCtsd =
      .flagUnexported fBodyCtsd.extern_loc "EXPORT " := by
  decide

/-- Claim C3, amended: For every function or method fact with
`has_body = true`, `classify` returns `Skip` regardless of all other fields;
the variable and class-template-specialization classifiers do not consult the
body. -/
theorem c3_has_body_skip (cfg : Config) (ig : List String)
    (f : DeclarationFact) (hbody : f.has_body = true)
    (hk : f.kind = .function ∨ f.kind = .method) :
    classify cfg ig f = .skip := by
  rcases hk with h | h <;> simp [classify, h, visitFunctionDecl, hbody]

/-- Claim C3, witness: The amended theorem applied to a concrete method with a
body. -/
theorem c3_witness : classify cfgDefault [] fBodyMethod = .skip :=
  c3_has_body_skip cfgDefault [] fBodyMethod (by decide) (Or.inr (by decide))

/-- Any fact carrying an export, import, or visibility attribute that is not
a private method is classified `Skip`: every verdict other than `Skip` is
behind either the annotation guard or the private-member guard. -/
theorem classify_annotated_not_private_skip (cfg : Config) (ig : List String)
    (f : DeclarationFact)
    (hattr : (f.has_dllexport_attr || f.has_dllimport_attr ||
      f.has_visibility_attr) = true)
    (hnp : ¬(f.kind = .method ∧ f.access = .asPrivate)) :
    classify cfg ig f = .skip := by
  obtain ⟨kind, qn, fn, sys, dep, body, fr, del, dfl, acc, pure, de, di, dv,
    tk, tsk2, compl, par, tag, inc, ext, sts, bl, il, el⟩ := f
  dsimp only at hattr hnp
  cases kind <;> cases de <;> cases di <;> cases dv <;>
    simp_all [classify, visitFunctionDecl, functionDeclTail,
      visitCXXRecordDecl, visitVarDecl, visitClassTemplateSpecializationDecl]

/-- A fact flagged unexported is never a private method: the private branch
of the function visitor yields only `Skip` or `FlagOverExportedPrivate`. -/
theorem classify_flagged_not_private (cfg : Config) (ig : List String)
    (f : DeclarationFact) (pt : Nat) (txt : String)
    (h : classify cfg ig f = .flagUnexported pt txt) :
    ¬(f.kind = .method ∧ f.access = .asPrivate) := by
  rintro ⟨hk, hpriv⟩
  obtain ⟨kind, qn, fn, sys, dep, body, fr, del, dfl, acc, pure, de, di, dv,
    tk, tsk2, compl, par, tag, inc, ext, sts, bl, il, el⟩ := f
  dsimp only at hk hpriv h
  subst hk
  subst hpriv
  simp [classify, visitFunctionDecl] at h
  repeat' split at h
  all_goals exact Verdict.noConfusion h

/-- Claim C4: Every fact with an export, import, or visibility attribute that
is not a private method is classified `Skip`; consequently, whenever
`classify` flags a fact unexported, re-classifying the fact after the
insertion has been applied (so that it now carries the export attribute)
yields `Skip` — the flag-and-fix cycle is idempotent. -/
theorem c4_annotated_skip_and_idempotence (cfg : Config) (ig : List String)
    (f : DeclarationFact) :
    ((f.has_dllexport_attr || f.has_dllimport_attr ||
        f.has_visibility_attr) = true →
      ¬(f.kind = .method ∧ f.access = .asPrivate) →
      classify cfg ig f = .skip) ∧
    (∀ pt txt, classify cfg ig f = .flagUnexported pt txt →
      classify cfg ig { f with has_dllexport_attr := true } = .skip) := by
  constructor
  · exact fun hattr hnp => classify_annotated_not_private_skip cfg ig f hattr hnp
  · intro pt txt h
    have hnp := classify_flagged_not_private cfg ig f pt txt h
    exact classify_annotated_not_private_skip cfg ig _ (by simp)
      (by simpa using hnp)

/-- Claim C4, witness: The theorem applied to a concrete annotated function and
to the concrete base function after its fix has been applied. -/
theorem c4_witness :
    classify cfgDefault [] fAnnotated = .skip ∧
    classify cfgDefault [] { baseFact with has_dllexport_attr := true } =
      .skip :=
  ⟨(c4_annotated_skip_and_idempotence cfgDefault [] fAnnotated).1 (by decide)
      (by decide),
   (c4_annotated_skip_and_idempotence cfgDefault [] baseFact).2
      baseFact.begin_loc "EXPORT " (by decide)⟩

/-- A free function `ns::g` whose bare identifier `g` is in the ignore
list. -/
def fIgnoredNs : DeclarationFact :=
  { baseFact with qualified_name := ["ns", "g"] }

/-- Claim C5: Every function fact whose bare identifier (the last component of
the qualified name, ignoring namespace qualification) is in the ignore list
is classified `Skip`, with no assumption on any other field — so even when no
other guard would skip the fact. -/
theorem c5_ignore_list_skip (cfg : Config) (ig : List String)
    (f : DeclarationFact) (hk : f.kind = .function)
    (hig : getNameAsString f ∈ ig) :
    classify cfg ig f = .skip := by
  simp only [classify, hk, visitFunctionDecl]
  simp_all [functionDeclTail]

/-- Claim C5, witness: The theorem applied to the concrete function `ns::g`
with ignore list `["g"]`: membership is tested on the bare identifier. -/
theorem c5_witness : classify cfgDefault ["g"] fIgnoredNs = .skip :=
  c5_ignore_list_skip cfgDefault ["g"] fIgnoredNs (by decide) (by decide)

/-- Inversion for the shared function-visitor tail: a flagged declaration
reports the template-aware insertion point and the macro text. -/
theorem functionDeclTail_flag_inv (cfg : Config) (ig : List String)
    (f : DeclarationFact) (pt : Nat) (txt : String)
    (h : functionDeclTail cfg ig f = .flagUnexported pt txt) :
    pt = (if f.templated_kind = .tkNonTemplate then f.begin_loc
      else f.inner_loc_start) ∧ txt = cfg.export_macro_name ++ " " := by
  unfold functionDeclTail at h
  by_cases c1 : (f.has_dllexport_attr || f.has_dllimport_attr ||
      f.has_visibility_attr) = true
  · rw [if_pos c1] at h; exact Verdict.noConfusion h
  rw [if_neg c1] at h
  by_cases c2 : ig.contains (getNameAsString f) = true
  · rw [if_pos c2] at h; exact Verdict.noConfusion h
  rw [if_neg c2] at h
  injection h with h1 h2
  exact ⟨h1.symm, h2.symm⟩

/-- Inversion for variant A's function visitor: whenever it flags a
declaration, the insertion point is template-aware and the text is the macro
plus a space. -/
theorem visitFunctionDecl_flag_inv (cfg : Config) (ig : List String)
    (f : DeclarationFact) (pt : Nat) (txt : String)
    (h : visitFunctionDecl cfg ig f = .flagUnexported pt txt) :
    pt = (if f.templated_kind = .tkNonTemplate then f.begin_loc
      else f.inner_loc_start) ∧ txt = cfg.export_macro_name ++ " " := by
  unfold visitFunctionDecl at h
  by_cases c1 : pathHeuristicSkip f.filename = true
  · rw [if_pos c1] at h; exact Verdict.noConfusion h
  rw [if_neg c1] at h
  by_cases c2 : f.in_system_header = true
  · rw [if_pos c2] at h; exact Verdict.noConfusion h
  rw [if_neg c2] at h
  by_cases c3 : f.is_dependent_context = true
  · rw [if_pos c3] at h; exact Verdict.noConfusion h
  rw [if_neg c3] at h
  by_cases c4 : f.has_body = true
  · rw [if_pos c4] at h; exact Verdict.noConfusion h
  rw [if_neg c4] at h
  by_cases c5 : f.is_friend = true
  · rw [if_pos c5] at h; exact Verdict.noConfusion h
  rw [if_neg c5] at h
  by_cases c6 : (f.is_deleted || f.is_defaulted) = true
  · rw [if_pos c6] at h; exact Verdict.noConfusion h
  rw [if_neg c6] at h
  cases hm : f.kind <;> simp only [hm] at h
  next => exact functionDeclTail_flag_inv cfg ig f pt txt h
  next =>
    by_cases c7 : cfg.annotate_classes = true
    · rw [if_pos c7] at h; exact Verdict.noConfusion h
    rw [if_neg c7] at h
    by_cases c8 : f.access = .asPrivate
    · rw [if_pos c8] at h
      by_cases c9 : f.has_dllexport_attr = true
      · rw [if_pos c9] at h; exact Verdict.noConfusion h
      · rw [if_neg c9] at h; exact Verdict.noConfusion h
    rw [if_neg c8] at h
    by_cases c10 : f.is_pure = true
    · rw [if_pos c10] at h; exact Verdict.noConfusion h
    rw [if_neg c10] at h
    exact functionDeclTail_flag_inv cfg ig f pt txt h
  all_goals exact functionDeclTail_flag_inv cfg ig f pt txt h

/-- Inversion for variant A's record visitor: whenever it flags a record, the
insertion point is the begin-location plus the `isStruct`-chosen offset and
the text is the macro plus a space. -/
theorem visitCXXRecordDecl_flag_inv (cfg : Config)
    (f : DeclarationFact) (pt : Nat) (txt : String)
    (h : visitCXXRecordDecl cfg f = .flagUnexported pt txt) :
    pt = f.begin_loc + (if f.tag = .structTag then 7 else 6) ∧
      txt = cfg.export_macro_name ++ " " := by
  unfold visitCXXRecordDecl at h
  by_cases c1 : ¬cfg.annotate_classes = true
  · rw [if_pos c1] at h; exact Verdict.noConfusion h
  rw [if_neg c1] at h
  by_cases c2 : getNameAsString f = "LLVM_ABI"
  · rw [if_pos c2] at h; exact Verdict.noConfusion h
  rw [if_neg c2] at h
  by_cases c3 : pathHeuristicSkip f.filename = true
  · rw [if_pos c3] at h; exact Verdict.noConfusion h
  rw [if_neg c3] at h
  by_cases c4 : f.in_system_header = true
  · rw [if_pos c4] at h; exact Verdict.noConfusion h
  rw [if_neg c4] at h
  by_cases c5 : ¬f.is_complete_definition = true
  · rw [if_pos c5] at h; exact Verdict.noConfusion h
  rw [if_neg c5] at h
  by_cases c6 : f.parent_is_record = true
  · rw [if_pos c6] at h; exact Verdict.noConfusion h
  rw [if_neg c6] at h
  by_cases c7 : (f.has_dllexport_attr || f.has_dllimport_attr ||
      f.has_visibility_attr) = true
  · rw [if_pos c7] at h; exact Verdict.noConfusion h
  rw [if_neg c7] at h
  by_cases c8 : f.tag = .unionTag
  · rw [if_pos c8] at h; exact Verdict.noConfusion h
  rw [if_neg c8] at h
  by_cases c9 : ¬f.include_loc_valid = true
  · rw [if_pos c9] at h; exact Verdict.noConfusion h
  rw [if_neg c9] at h
  by_cases c10 : f.tsk = .tskExplicitInstantiationDeclaration ∨
      f.tsk = .tskExplicitInstantiationDefinition
  · rw [if_pos c10] at h; exact Verdict.noConfusion h
  rw [if_neg c10] at h
  injection h with h1 h2
  exact ⟨h1.symm, h2.symm⟩

/-- Inversion for variant A's variable visitor: whenever it flags a variable,
the insertion point is the begin-location and the text is the macro plus a
space. -/
theorem visitVarDecl_flag_inv (cfg : Config)
    (f : DeclarationFact) (pt : Nat) (txt : String)
    (h : visitVarDecl cfg f = .flagUnexported pt txt) :
    pt = f.begin_loc ∧ txt = cfg.export_macro_name ++ " " := by
  unfold visitVarDecl at h
  by_cases c1 : pathHeuristicSkip f.filename = true
  · rw [if_pos c1] at h; exact Verdict.noConfusion h
  rw [if_neg c1] at h
  by_cases c2 : (f.has_dllexport_attr || f.has_dllimport_attr ||
      f.has_visibility_attr) = true
  · rw [if_pos c2] at h; exact Verdict.noConfusion h
  rw [if_neg c2] at h
  by_cases c3 : ¬f.has_external_storage = true
  · rw [if_pos c3] at h; exact Verdict.noConfusion h
  rw [if_neg c3] at h
  injection h with h1 h2
  exact ⟨h1.symm, h2.symm⟩

/-- Inversion for variant A's class-template-specialization visitor: whenever
it flags a specialization, the insertion point is the `extern` keyword
location and the text is the macro plus a space. -/
theorem visitCTSD_flag_inv (cfg : Config)
    (f : DeclarationFact) (pt : Nat) (txt : String)
    (h : visitClassTemplateSpecializationDecl cfg f = .flagUnexported pt txt) :
    pt = f.extern_loc ∧ txt = cfg.export_macro_name ++ " " := by
  unfold visitClassTemplateSpecializationDecl at h
  by_cases c1 : pathHeuristicSkip f.filename = true
  · rw [if_pos c1] at h; exact Verdict.noConfusion h
  rw [if_neg c1] at h
  by_cases c2 : (f.has_dllexport_attr || f.has_dllimport_attr ||
      f.has_visibility_attr) = true
  · rw [if_pos c2] at h; exact Verdict.noConfusion h
  rw [if_neg c2] at h
  injection h with h1 h2
  exact ⟨h1.symm, h2.symm⟩

/-- Claim C6: Whenever the function visitor flags a function or method fact
unexported, the insertion point is the function's own begin-location when it
is a non-template, and the location immediately inside the template header
(`getInnerLocStart`, after `template<...>`) for every other templated
kind — templates, member specializations, and explicit specializations. -/
theorem c6_function_insertion_point (cfg : Config) (ig : List String)
    (f : DeclarationFact) (pt : Nat) (txt : String)
    (hk : f.kind = .function ∨ f.kind = .method)
    (h : classify cfg ig f = .flagUnexported pt txt) :
    pt = if f.templated_kind = .tkNonTemplate then f.begin_loc
      else f.inner_loc_start := by
  rcases hk with hk | hk <;> simp only [classify, hk] at h <;>
    exact (visitFunctionDecl_flag_inv cfg ig f pt txt h).1

/-- Claim C6, witness: The theorem applied to the concrete explicit
specialization `template <> void tpl<char>(char &);`, whose insertion point
is past the template header. -/
theorem c6_witness :
    (12 : Nat) = if fTplSpec.templated_kind = .tkNonTemplate
      then fTplSpec.begin_loc else fTplSpec.inner_loc_start :=
  c6_function_insertion_point cfgDefault [] fTplSpec 12 "EXPORT "
    (Or.inl (by decide)) (by decide)

/-- The record keyword the fact was declared with. -/
def tagKeyword : TagKind → String
  | .classTag => "class"
  | .structTag => "struct"
  | .unionTag => "union"

/-- The code's keyword offset — 7 when the record is a `struct`, 6
otherwise — equals the keyword's length plus one for every tag kind
(`class` and `union` have length 5, `struct` has length 6). -/
theorem tagKeyword_length (t : TagKind) :
    (tagKeyword t).length + 1 = if t = TagKind.structTag then 7 else 6 := by
  cases t <;> decide

/-- Claim C7: Whenever the record visitor flags a record fact unexported, the
insertion point is the record's begin-location advanced by the length of its
`class`/`struct`/`union` keyword plus one — 6 for `class` and `union`, 7 for
`struct` — placing the macro between the keyword and the type name. -/
theorem c7_record_insertion_point (cfg : Config) (ig : List String)
    (f : DeclarationFact) (pt : Nat) (txt : String) (hk : f.kind = .record)
    (h : classify cfg ig f = .flagUnexported pt txt) :
    pt = f.begin_loc + ((tagKeyword f.tag).length + 1) := by
  simp only [classify, hk] at h
  rw [(visitCXXRecordDecl_flag_inv cfg f pt txt h).1, tagKeyword_length]

/-- Claim C7, witness: The theorem applied to a concrete flagged `struct`
definition: the insertion point is its begin-location plus 7. -/
theorem c7_witness :
    (107 : Nat) = fStructRec.begin_loc + ((tagKeyword fStructRec.tag).length + 1) :=
  c7_record_insertion_point cfgDefault [] fStructRec 107 "EXPORT "
    (by decide) (by decide)

/-- Claim C8: Every `FlagUnexported` verdict produced by `classify` — for
functions, methods, records, variables, and class-template specializations
alike — carries insertion text equal to the configured export macro followed
by exactly one space. -/
theorem c8_insertion_text (cfg : Config) (ig : List String)
    (f : DeclarationFact) (pt : Nat) (txt : String)
    (h : classify cfg ig f = .flagUnexported pt txt) :
    txt = cfg.export_macro_name ++ " " := by
  cases hm : f.kind <;> simp only [classify, hm] at h
  next => exact (visitFunctionDecl_flag_inv cfg ig f pt txt h).2
  next => exact (visitFunctionDecl_flag_inv cfg ig f pt txt h).2
  next => exact (visitCXXRecordDecl_flag_inv cfg f pt txt h).2
  next => exact (visitVarDecl_flag_inv cfg f pt txt h).2
  next => exact (visitCTSD_flag_inv cfg f pt txt h).2

/-- Claim C8, witness: The theorem applied to the concrete flagged base
function with macro `EXPORT`. -/
theorem c8_witness : ("EXPORT " : String) = cfgDefault.export_macro_name ++ " " :=
  c8_insertion_text cfgDefault [] baseFact baseFact.begin_loc "EXPORT "
    (by decide)

end Ids
